import Mathlib

/-!
Verification development for the VacationSync Flask backend
(src/flask_backend/app.py): a shallow embedding of the validation helpers,
the Amadeus token manager and the search endpoints, together with theorems
settling the specification claims about them.

Modelling conventions:
* Python strings are Lean `String`s restricted to ASCII behaviour
  (`str.upper`, `str.isalpha`, `int(...)` are modelled for ASCII input;
  the Unicode-digit corner of Python is out of scope).
* Python `None`-able request parameters are `Option String`; Python
  truthiness of a string is "non-empty".
* Wall-clock timestamps are integers (seconds); `datetime.now()` is passed
  in explicitly as `now`.
* The outcome of each upstream HTTP exchange is passed in explicitly as a
  value of an inductive type, so the functions stay pure while following the
  source line by line.
* A Python function that can raise is embedded as `Except`; an exception
  that escapes the function (is not caught there) is a dedicated `raised`
  result constructor.
-/

/-! ## Python string/number semantics helpers -/

/-- Python truthiness of an optional string parameter: present and non-empty. -/
def py_truthy (s : Option String) : Bool :=
  match s with
  | none => false
  | some s => s != ""

/-- Python `str.upper()` (ASCII scope). -/
def py_upper (s : String) : String :=
  String.mk (s.data.map Char.toUpper)

/-- Python `str.strip()` as used implicitly by `int(...)`: drop surrounding
whitespace. -/
def py_strip (s : String) : String :=
  String.mk (((s.data.dropWhile Char.isWhitespace).reverse.dropWhile Char.isWhitespace).reverse)

/-- Does `needle` occur as a contiguous substring of the character list? -/
def contains_sub (needle : List Char) : List Char → Bool
  | [] => needle.isPrefixOf []
  | c :: rest => needle.isPrefixOf (c :: rest) || contains_sub needle rest

/-- Python `needle in haystack` for strings (substring test). -/
def py_in (needle haystack : String) : Bool :=
  contains_sub needle.data haystack.data

/-- Numeric value of an ASCII digit character. -/
def c2n (c : Char) : Nat := c.toNat - '0'.toNat

/-- Read a non-empty all-digit character list as a natural number. -/
def parseDigitsAux : List Char → Nat → Option Nat
  | [], acc => some acc
  | c :: rest, acc => if c.isDigit then parseDigitsAux rest (10 * acc + c2n c) else none

/-- Read a non-empty all-digit character list as a natural number. -/
def parseDigits : List Char → Option Nat
  | [] => none
  | l => parseDigitsAux l 0

/-- Python `int(s)` on a string: strip whitespace, optional sign, decimal
digits (`none` models the `ValueError` raised on any other shape; digit
grouping underscores are out of scope). -/
def py_int (s : String) : Option Int :=
  match (py_strip s).data with
  | '-' :: rest => (parseDigits rest).map (fun n => -(n : Int))
  | '+' :: rest => (parseDigits rest).map (fun n => (n : Int))
  | l => (parseDigits l).map (fun n => (n : Int))

/-- The apostrophe character, kept out of string literals. -/
def apos : String := String.mk [Char.ofNat 39]

/-- The text Python produces for `str(ValueError)` applied to the exception
CLASS itself (the source writes `str(ValueError)`, not `str(e)`): the class
repr `<class ...ValueError...>`.  It never contains "must be between". -/
def str_ValueError_class : String :=
  "<class " ++ apos ++ "ValueError" ++ apos ++ ">"

/-- The `except (ValueError, TypeError)` branch shared by the numeric
validators (app.py lines 36-39, 78-81): re-raise the original error only if
"must be between" occurs in `str(ValueError)` — which, being the class repr,
never holds — otherwise raise the generic "must be a valid integer" error. -/
def rewrap_numeric_error (field_name original_msg : String) : String :=
  if !(py_in "must be between" str_ValueError_class) then
    field_name ++ " must be a valid integer"
  else
    original_msg

/-! ## Validators (app.py lines 10-81) -/

/-- `validate_city_code` (app.py lines 10-14): exactly 3 alphabetic
characters, uppercased. -/
def validate_city_code (city_code : String) : Except String String :=
  if city_code == "" || city_code.length != 3 || !(city_code.data.all Char.isAlpha) then
    .error "City code must be exactly 3 letters"
  else
    .ok (py_upper city_code)

/-- Extract year/month/day from a string of exactly the shape
`DDDD-DD-DD` (D a digit); `none` on any other shape. -/
def parse_ymd (s : String) : Option (Nat × Nat × Nat) :=
  match s.data with
  | [y1, y2, y3, y4, '-', m1, m2, '-', d1, d2] =>
      if y1.isDigit && y2.isDigit && y3.isDigit && y4.isDigit &&
         m1.isDigit && m2.isDigit && d1.isDigit && d2.isDigit then
        some (1000 * c2n y1 + 100 * c2n y2 + 10 * c2n y3 + c2n y4,
              10 * c2n m1 + c2n m2,
              10 * c2n d1 + c2n d2)
      else none
  | _ => none

/-- The literal `YYYY-MM-DD` shape: ten characters, digits and two dashes. -/
def date_pattern_core (s : String) : Bool := (parse_ymd s).isSome

/-- Python `re.match` against the source pattern anchored with `$`:
a final `$` also matches just before one trailing newline, so the raw
pattern additionally accepts the ten-character shape followed by `\n`. -/
def re_match_date (s : String) : Bool :=
  date_pattern_core s ||
    (match s.data.getLast? with
     | some c => c == '\n' && date_pattern_core (String.mk s.data.dropLast)
     | none => false)

/-- Gregorian leap year. -/
def isLeap (y : Nat) : Bool := y % 4 == 0 && (y % 100 != 0 || y % 400 == 0)

/-- Days in a month of the proleptic Gregorian calendar. -/
def daysInMonth (y m : Nat) : Nat :=
  if m == 2 then (if isLeap y then 29 else 28)
  else if m == 4 || m == 6 || m == 9 || m == 11 then 30
  else 31

/-- Calendar validity as enforced by Python `datetime` (year 1..9999). -/
def calendar_valid (y m d : Nat) : Bool :=
  decide (1 ≤ y) && decide (y ≤ 9999) && decide (1 ≤ m) && decide (m ≤ 12) &&
  decide (1 ≤ d) && decide (d ≤ daysInMonth y m)

/-- `datetime.strptime(s, %Y-%m-%d)` succeeding: the format must consume the
whole string (otherwise "unconverted data remains" raises), so exactly the
ten-character shape with a calendar-valid date. -/
def strptime_Y_m_d_ok (s : String) : Bool :=
  match parse_ymd s with
  | some (y, m, d) => calendar_valid y m d
  | none => false

/-- `validate_date` (app.py lines 16-25): regex shape check, then a real
strptime parse. -/
def validate_date (date_str field_name : String) : Except String String :=
  if date_str == "" || !(re_match_date date_str) then
    .error (field_name ++ " must be in YYYY-MM-DD format")
  else if strptime_Y_m_d_ok date_str then
    .ok date_str
  else
    .error (field_name ++ " is not a valid date")

/-- `validate_positive_int` (app.py lines 27-39).  The out-of-range branch
raises "must be between" inside the `try`, but the `except` branch then
inspects `str(ValueError)` (the class repr) instead of the message, so the
range error is always replaced by the generic integer error. -/
def validate_positive_int (value_str field_name : String) (min_val max_val : Int) :
    Except String Int :=
  if value_str == "" then
    .error (field_name ++ " is required")
  else
    match py_int value_str with
    | none =>
        .error (rewrap_numeric_error field_name
          ("invalid literal for int() with base 10: " ++ value_str))
    | some num =>
        if num < min_val || num > max_val then
          .error (rewrap_numeric_error field_name
            (field_name ++ " must be between " ++ toString min_val ++ " and " ++ toString max_val))
        else
          .ok num

/-- `validate_radius` (app.py lines 69-81): empty defaults to 20, otherwise
an integer in [1,100]; shares the broken `except` branch shape. -/
def validate_radius (radius_str : String) : Except String Int :=
  if radius_str == "" then
    .ok 20
  else
    match py_int radius_str with
    | none =>
        .error (rewrap_numeric_error "Radius"
          ("invalid literal for int() with base 10: " ++ radius_str))
    | some radius =>
        if radius < 1 || radius > 100 then
          .error (rewrap_numeric_error "Radius" "Radius must be between 1 and 100 km")
        else
          .ok radius

/-! ## Token manager (app.py lines 99-134) -/

/-- The two module-level globals `access_token` and `token_expires_at`. -/
structure TokenState where
  access_token : Option String
  token_expires_at : Option Int
deriving DecidableEq

/-- Outcome of one POST to the upstream token endpoint, as seen through the
`requests` library.  The first three constructors are the cases that raise
`requests.exceptions.RequestException`: connection/timeout failure, a
non-2xx status via `raise_for_status`, and a non-JSON body via `resp.json()`
(`requests.exceptions.JSONDecodeError`, a `RequestException` subclass).
`jsonBody` is a 2xx response with a JSON object body, carrying its optional
`access_token` and `expires_in` members. -/
inductive TokenResponse
  | networkError
  | httpError
  | invalidJson
  | jsonBody (access_token : Option String) (expires_in : Option Int)
deriving DecidableEq

/-- How one call of `get_amadeus_token` ends: a returned token, a returned
`None`, or an exception escaping the function (e.g. the `KeyError` from
`token_data["access_token"]`, which no `except` clause there catches). -/
inductive TokenResult
  | ok (token : String)
  | unavailable
  | raised
deriving DecidableEq

/-- Which token-endpoint outcomes raise `requests.exceptions.RequestException`. -/
def TokenResponse.isRequestException : TokenResponse → Bool
  | networkError => true
  | httpError => true
  | invalidJson => true
  | jsonBody _ _ => false

/-- The refresh attempt of `get_amadeus_token` (app.py lines 111-134): the
body below the cache check.  On success both globals are replaced together
with the new token and `now + max(expires_in - 300, 60)`; on a
`RequestException` the function returns `None` leaving the globals alone;
a JSON body without `access_token` raises `KeyError` (uncaught). -/
def refresh_token (now : Int) (resp : TokenResponse) (st : TokenState) :
    TokenResult × TokenState :=
  match resp with
  | .networkError => (.unavailable, st)
  | .httpError => (.unavailable, st)
  | .invalidJson => (.unavailable, st)
  | .jsonBody none _ => (.raised, st)
  | .jsonBody (some new_token) ein =>
      (.ok new_token, ⟨some new_token, some (now + max (ein.getD 1800 - 300) 60)⟩)

/-- The cache check `access_token and token_expires_at and datetime.now() <
token_expires_at` (app.py line 108): string truthiness for the token, a
datetime is always truthy, strict `<` on the clock. -/
def cached_valid (now : Int) (st : TokenState) : Bool :=
  match st.access_token, st.token_expires_at with
  | some t, some e => t != "" && decide (now < e)
  | _, _ => false

/-- `get_amadeus_token` (app.py lines 103-134).  The third component counts
refresh POSTs to the token endpoint made by this call (0 or 1). -/
def get_amadeus_token (now : Int) (resp : TokenResponse) (st : TokenState) :
    TokenResult × TokenState × Nat :=
  if cached_valid now st then
    (.ok (st.access_token.getD ""), st, 0)
  else
    ((refresh_token now resp st).1, (refresh_token now resp st).2, 1)

/-! ## Upstream gateway (app.py lines 136-156) -/

/-- The JSON object body of a 2xx search response: whether it has a `data`
member (a list of records, abstracted to opaque numbers), an optional `meta`
member, and whether any further keys exist (for dict truthiness). -/
structure SearchBody where
  data : Option (List Nat)
  meta : Option Nat
  otherKeys : Bool
deriving DecidableEq

/-- Python truthiness of the response dict: non-empty. -/
def SearchBody.truthy (b : SearchBody) : Bool :=
  b.data.isSome || b.meta.isSome || b.otherKeys

/-- Outcome of the search GET, as seen through `requests`:
`reqError` covers every case raising `RequestException` (transport failure,
timeout, non-2xx via `raise_for_status`, non-JSON body). -/
inductive GetOutcome
  | reqError
  | jsonBody (b : SearchBody)
deriving DecidableEq

/-- Value of `make_amadeus_request` as seen by a route: `None`, a parsed
body, or an exception propagating out of it. -/
inductive AmReqResult
  | noneRes
  | someBody (b : SearchBody)
  | raised
deriving DecidableEq

/-- `make_amadeus_request` (app.py lines 136-156).  The third component
records whether the GET request was actually issued. -/
def make_amadeus_request (now : Int) (tresp : TokenResponse) (st : TokenState)
    (go : GetOutcome) : AmReqResult × TokenState × Bool :=
  let t := get_amadeus_token now tresp st
  match t.1 with
  | .raised => (.raised, t.2.1, false)
  | .unavailable => (.noneRes, t.2.1, false)
  | .ok tok =>
      if tok == "" then (.noneRes, t.2.1, false)
      else
        match go with
        | .reqError => (.noneRes, t.2.1, true)
        | .jsonBody b => (.someBody b, t.2.1, true)

/-! ## Routes (app.py lines 162-311) -/

/-- The JSON responses a search route can produce.  In `ok`, `meta = none`
stands for the empty mapping defaulted by `result.get` when the body has no
`meta` member. -/
inductive Response
  | ok (data : List Nat) (meta : Option Nat) (source : String)
  | missingParams (required : List String)
  | invalidParam (message : String)
  | notFound (error : String)
  | serverError
deriving DecidableEq

/-- The raw query parameters of `/search/flights`. -/
structure FlightArgs where
  origin : Option String
  destination : Option String
  departureDate : Option String
  returnDate : Option String
  adults : Option String
  travelClass : Option String
  airline : Option String
deriving DecidableEq

/-- The query parameters sent upstream by `/search/flights`
(app.py lines 183-196). -/
structure FlightParams where
  originLocationCode : String
  destinationLocationCode : String
  departureDate : String
  adults : String
  travelClass : String
  currencyCode : String
  max : Nat
  returnDate : Option String
  includedAirlineCodes : Option String
deriving DecidableEq

/-- Construction of the upstream flight-offers parameters (app.py lines
183-196): codes and class uppercased, fixed `currencyCode` and `max`, the
optional members added only when truthy. -/
def flight_params (origin destination departure_date adults travel_class : String)
    (return_date airline : Option String) : FlightParams :=
  ⟨py_upper origin,
   py_upper destination,
   departure_date,
   adults,
   py_upper travel_class,
   "USD",
   50,
   (match return_date with
    | some r => if r != "" then some r else none
    | none => none),
   (match airline with
    | some a => if a != "" then some (py_upper a) else none
    | none => none)⟩

/-- `/search/flights` (app.py lines 162-210).  The third component is the
GET actually issued upstream, when one was. -/
def search_flights (a : FlightArgs) (now : Int) (tresp : TokenResponse)
    (st : TokenState) (go : GetOutcome) :
    Response × TokenState × Option FlightParams :=
  if !(py_truthy a.origin && py_truthy a.destination && py_truthy a.departureDate) then
    (.missingParams ["origin", "destination", "departureDate"], st, none)
  else
    let adults := a.adults.getD "1"
    let travel_class := a.travelClass.getD "ECONOMY"
    let params := flight_params (a.origin.getD "") (a.destination.getD "")
      (a.departureDate.getD "") adults travel_class a.returnDate a.airline
    let m := make_amadeus_request now tresp st go
    let sent := if m.2.2 then some params else none
    let out : Response :=
      match m.1 with
      | .raised => .serverError
      | .noneRes => .notFound "No flights found"
      | .someBody b =>
          if b.truthy && b.data.isSome then .ok (b.data.getD []) b.meta "Amadeus"
          else .notFound "No flights found"
    (out, m.2.1, sent)

/-- The raw query parameters of `/search/hotels`. -/
structure HotelArgs where
  cityCode : Option String
  checkInDate : Option String
  checkOutDate : Option String
  adults : Option String
  roomQuantity : Option String
deriving DecidableEq

/-- The query parameters sent upstream by `/search/hotels`
(app.py lines 245-252). -/
structure HotelParams where
  cityCode : String
  checkInDate : String
  checkOutDate : String
  adults : String
  roomQuantity : String
deriving DecidableEq

/-- The validation phase of `/search/hotels` (app.py lines 216-252): the
missing-parameters gate, then the `try` chain of per-field validators whose
first raise is converted to a 400 `Invalid parameter` response. -/
def search_hotels_validate (a : HotelArgs) : Except Response HotelParams :=
  if !(py_truthy a.cityCode && py_truthy a.checkInDate && py_truthy a.checkOutDate) then
    .error (.missingParams ["cityCode", "checkInDate", "checkOutDate"])
  else
    match validate_city_code (a.cityCode.getD "") with
    | .error m => .error (.invalidParam m)
    | .ok vc =>
      match validate_date (a.checkInDate.getD "") "checkInDate" with
      | .error m => .error (.invalidParam m)
      | .ok ci =>
        match validate_date (a.checkOutDate.getD "") "checkOutDate" with
        | .error m => .error (.invalidParam m)
        | .ok co =>
          match validate_positive_int (a.adults.getD "1") "adults" 1 30 with
          | .error m => .error (.invalidParam m)
          | .ok ad =>
            match validate_positive_int (a.roomQuantity.getD "1") "roomQuantity" 1 10 with
            | .error m => .error (.invalidParam m)
            | .ok rq => .ok ⟨vc, ci, co, toString ad, toString rq⟩

/-- `/search/hotels` (app.py lines 212-264). -/
def search_hotels (a : HotelArgs) (now : Int) (tresp : TokenResponse)
    (st : TokenState) (go : GetOutcome) :
    Response × TokenState × Option HotelParams :=
  match search_hotels_validate a with
  | .error r => (r, st, none)
  | .ok params =>
      let m := make_amadeus_request now tresp st go
      let sent := if m.2.2 then some params else none
      let out : Response :=
        match m.1 with
        | .raised => .serverError
        | .noneRes => .notFound "No hotels found"
        | .someBody b =>
            if b.truthy && b.data.isSome then .ok (b.data.getD []) b.meta "Amadeus"
            else .notFound "No hotels found"
      (out, m.2.1, sent)

/-! ## Spec-side model for the hotels validation order (refinement) -/

/-- The error of an `Except`, if any. -/
def exceptError {ε α : Type} : Except ε α → Option ε
  | .error e => some e
  | .ok _ => none

/-- First present element, in order. -/
def first_some : List (Option String) → Option String
  | [] => none
  | some m :: _ => some m
  | none :: rest => first_some rest

/-- Refinement model following the words of spec section 4.2: a distinct
missing-parameters failure listing all required names is produced first;
only then per-field validation runs, and of the per-field failures exactly
the first encountered (in field order) is returned. -/
def hotels_validation_spec (a : HotelArgs) : Option Response :=
  if !(py_truthy a.cityCode && py_truthy a.checkInDate && py_truthy a.checkOutDate) then
    some (.missingParams ["cityCode", "checkInDate", "checkOutDate"])
  else
    match first_some
      [exceptError (validate_city_code (a.cityCode.getD "")),
       exceptError (validate_date (a.checkInDate.getD "") "checkInDate"),
       exceptError (validate_date (a.checkOutDate.getD "") "checkOutDate"),
       exceptError (validate_positive_int (a.adults.getD "1") "adults" 1 30),
       exceptError (validate_positive_int (a.roomQuantity.getD "1") "roomQuantity" 1 10)] with
    | some m => some (.invalidParam m)
    | none => none

/-! ## Float validators and the activities route (app.py lines 41-67, 266-311) -/

/-- Value of an all-digit character list (0 for the empty list). -/
def digitsVal (l : List Char) : Nat :=
  l.foldl (fun acc c => 10 * acc + c2n c) 0

/-- An unsigned decimal for Python `float`: digits, optionally with one
point and digits on either side of it (at least one digit overall).
Exponents, inf/nan and grouping underscores are out of scope. -/
def parseDecimal (l : List Char) : Option ℚ :=
  let intPart := l.takeWhile (fun c => c != '.')
  let rest := l.dropWhile (fun c => c != '.')
  match rest with
  | [] =>
      if !intPart.isEmpty && intPart.all Char.isDigit then
        some ((digitsVal intPart : ℚ))
      else none
  | _ :: fracPart =>
      if (!intPart.isEmpty || !fracPart.isEmpty) && intPart.all Char.isDigit &&
          fracPart.all Char.isDigit then
        some ((digitsVal intPart : ℚ) + (digitsVal fracPart : ℚ) / (10 : ℚ) ^ fracPart.length)
      else none

/-- Python `float(s)` on a string (decimal scope): strip whitespace,
optional sign, decimal literal; `none` models the raised `ValueError`. -/
def py_float (s : String) : Option ℚ :=
  match (py_strip s).data with
  | '-' :: rest => (parseDecimal rest).map (fun q => -q)
  | '+' :: rest => parseDecimal rest
  | l => parseDecimal l

/-- The `except (ValueError, TypeError)` branch of the float validators
(app.py lines 50-53, 64-67): same shape as the integer ones — the guard
inspects `str(ValueError)`, the class repr, so the original range message is
always replaced by the given generic message. -/
def rewrap_range_error (generic_msg original_msg : String) : String :=
  if !(py_in "must be between" str_ValueError_class) then
    generic_msg
  else
    original_msg

/-- `validate_latitude` (app.py lines 41-53): float in [-90, 90]. -/
def validate_latitude (lat_str : String) : Except String ℚ :=
  if lat_str == "" then
    .error "Latitude is required"
  else
    match py_float lat_str with
    | none =>
        .error (rewrap_range_error "Latitude must be a valid number"
          ("could not convert string to float: " ++ lat_str))
    | some lat =>
        if decide (lat < -90) || decide (lat > 90) then
          .error (rewrap_range_error "Latitude must be a valid number"
            "Latitude must be between -90 and 90")
        else
          .ok lat

/-- `validate_longitude` (app.py lines 55-67): float in [-180, 180]. -/
def validate_longitude (lng_str : String) : Except String ℚ :=
  if lng_str == "" then
    .error "Longitude is required"
  else
    match py_float lng_str with
    | none =>
        .error (rewrap_range_error "Longitude must be a valid number"
          ("could not convert string to float: " ++ lng_str))
    | some lng =>
        if decide (lng < -180) || decide (lng > 180) then
          .error (rewrap_range_error "Longitude must be a valid number"
            "Longitude must be between -180 and 180")
        else
          .ok lng

/-- The raw query parameters of `/search/activities`. -/
structure ActivityArgs where
  latitude : Option String
  longitude : Option String
  radius : Option String
deriving DecidableEq

/-- The query parameters sent upstream by `/search/activities`
(app.py lines 295-299): the validated floats and the radius as a string. -/
structure ActivityParams where
  latitude : ℚ
  longitude : ℚ
  radius : String
deriving DecidableEq

/-- The validation phase of `/search/activities` (app.py lines 270-293):
the missing-parameters gate for latitude and longitude, then the `try`
chain of validators whose first raise becomes a 400 `Invalid parameter`
response.  The radius string defaults to "20" when the parameter is
absent. -/
def search_activities_validate (a : ActivityArgs) : Except Response ActivityParams :=
  let radius_str := a.radius.getD "20"
  if !(py_truthy a.latitude && py_truthy a.longitude) then
    .error (.missingParams ["latitude", "longitude"])
  else
    match validate_latitude (a.latitude.getD "") with
    | .error m => .error (.invalidParam m)
    | .ok lat =>
      match validate_longitude (a.longitude.getD "") with
      | .error m => .error (.invalidParam m)
      | .ok lng =>
        match validate_radius radius_str with
        | .error m => .error (.invalidParam m)
        | .ok r => .ok ⟨lat, lng, toString r⟩

/-- `/search/activities` (app.py lines 266-311). -/
def search_activities (a : ActivityArgs) (now : Int) (tresp : TokenResponse)
    (st : TokenState) (go : GetOutcome) :
    Response × TokenState × Option ActivityParams :=
  match search_activities_validate a with
  | .error r => (r, st, none)
  | .ok params =>
      let m := make_amadeus_request now tresp st go
      let sent := if m.2.2 then some params else none
      let out : Response :=
        match m.1 with
        | .raised => .serverError
        | .noneRes => .notFound "No activities found"
        | .someBody b =>
            if b.truthy && b.data.isSome then .ok (b.data.getD []) b.meta "Amadeus"
            else .notFound "No activities found"
      (out, m.2.1, sent)

/-! ## Claims -/

/-- C1: the claim says each numeric validator reports a range-specific
"must be between" message for in-grammar but out-of-range input, distinct
from the generic parse-error message for input like "abc".  The code instead
inspects `str(ValueError)` — the class repr, never containing
"must be between" — so the range message is always replaced by the generic
one: out-of-range "31" and non-numeric "abc" produce the identical generic
message, and `validate_radius "101"` likewise reports the generic message.
In-range values still succeed. -/
theorem c1_range_message_swallowed :
    validate_positive_int "31" "adults" 1 30 = .error "adults must be a valid integer" ∧
    validate_positive_int "abc" "adults" 1 30 = .error "adults must be a valid integer" ∧
    validate_positive_int "30" "adults" 1 30 = .ok 30 ∧
    validate_radius "101" = .error "Radius must be a valid integer" ∧
    validate_radius "50" = .ok 50 ∧
    validate_radius "" = .ok 20 :=
  ⟨rfl, rfl, rfl, rfl, rfl, rfl⟩

/-- C2: a successful token refresh parses `access_token` and `expires_in`
(defaulting to 1800 seconds when absent) and stores the new token together
with expiry `now + max(expires_in - 300, 60)` before returning the token. -/
theorem c2_refresh_success_formula (now : Int) (st : TokenState) (tok : String)
    (ein : Option Int) :
    refresh_token now (.jsonBody (some tok) ein) st =
      (.ok tok, ⟨some tok, some (now + max (ein.getD 1800 - 300) 60)⟩) := rfl

/-- C4: every refresh failure surfaced by the HTTP library as a
`RequestException` — network failure, non-2xx status, malformed (non-JSON)
response body — makes `get_amadeus_token` return `None` as a normal value,
leaving the cached state untouched, rather than raising. -/
theorem c4_request_exception_returns_none (now : Int) (st : TokenState)
    (resp : TokenResponse) (h : resp.isRequestException = true) :
    refresh_token now resp st = (.unavailable, st) := by
  cases resp with
  | networkError => rfl
  | httpError => rfl
  | invalidJson => rfl
  | jsonBody t e => simp [TokenResponse.isRequestException] at h

/-- Witness for C4 at a concrete failing refresh (network failure, empty
cache). -/
theorem c4_witness :
    TokenResponse.isRequestException .networkError = true ∧
    refresh_token 0 .networkError ⟨none, none⟩ = (.unavailable, ⟨none, none⟩) :=
  ⟨rfl, c4_request_exception_returns_none 0 ⟨none, none⟩ .networkError rfl⟩

/-- C5: with a cached credential (non-empty token, expiry set) whose expiry
is strictly in the future, `get_amadeus_token` returns the cached token with
zero refresh calls; in every other situation it makes exactly one refresh
attempt. -/
theorem c5_cache_hit_no_network (now : Int) (st : TokenState) (resp : TokenResponse) :
    (∀ tok exp, st.access_token = some tok → tok ≠ "" →
        st.token_expires_at = some exp → now < exp →
        get_amadeus_token now resp st = (.ok tok, st, 0)) ∧
    (cached_valid now st = false → (get_amadeus_token now resp st).2.2 = 1) := by
  constructor
  · intro tok exp h1 h2 h3 h4
    obtain ⟨ta, te⟩ := st
    simp only [TokenState.mk.injEq] at h1 h3 ⊢
    subst h1
    subst h3
    have hcv : cached_valid now ⟨some tok, some exp⟩ = true := by
      simp [cached_valid, h2, h4]
    simp [get_amadeus_token, hcv]
  · intro h
    simp [get_amadeus_token, h]

/-- Witness for C5: a concrete cache hit returns the cached token with zero
calls, and a concrete empty cache makes exactly one refresh call. -/
theorem c5_witness :
    get_amadeus_token 0 .networkError ⟨some "tok", some 100⟩ =
      (.ok "tok", ⟨some "tok", some 100⟩, 0) ∧
    (get_amadeus_token 0 .networkError ⟨none, none⟩).2.2 = 1 :=
  ⟨(c5_cache_hit_no_network 0 ⟨some "tok", some 100⟩ .networkError).1 "tok" 100 rfl
      (by decide) rfl (by decide),
   (c5_cache_hit_no_network 0 ⟨none, none⟩ .networkError).2 rfl⟩

/-- C6: a refresh attempt that does not return a token leaves both globals
exactly as they were, and whenever the state does change it is replaced
atomically by a full credential (token and expiry both set) whose token is
the one returned — no partial state is ever stored. -/
theorem c6_failed_refresh_preserves_state (now : Int) (st : TokenState)
    (resp : TokenResponse) :
    ((∀ t, (refresh_token now resp st).1 ≠ .ok t) →
        (refresh_token now resp st).2 = st) ∧
    ((refresh_token now resp st).2 = st ∨
      ∃ t e, (refresh_token now resp st).1 = .ok t ∧
        (refresh_token now resp st).2 = ⟨some t, some e⟩) := by
  cases resp with
  | networkError => exact ⟨fun _ => rfl, .inl rfl⟩
  | httpError => exact ⟨fun _ => rfl, .inl rfl⟩
  | invalidJson => exact ⟨fun _ => rfl, .inl rfl⟩
  | jsonBody t e =>
      cases t with
      | none => exact ⟨fun _ => rfl, .inl rfl⟩
      | some tok =>
          constructor
          · intro h
            exact absurd rfl (h tok)
          · exact .inr ⟨tok, now + max (e.getD 1800 - 300) 60, rfl, rfl⟩

/-- Witness for C6 at a concrete failed refresh (non-2xx status): the cached
credential is untouched. -/
theorem c6_witness :
    (refresh_token 0 .httpError ⟨some "t", some 5⟩).2 = ⟨some "t", some 5⟩ := by
  have h := (c6_failed_refresh_preserves_state 0 ⟨some "t", some 5⟩ .httpError).1
  exact h (by intro t ht; simp [refresh_token] at ht)

/-- C7: whenever the token manager cannot supply a token, the gateway
returns `None` without issuing the GET, and every search route answers 404
rather than 500: the flights route (given its required parameters) with
"No flights found", the hotels route (given parameters passing validation)
with "No hotels found", and the activities route (given parameters passing
validation) with "No activities found". -/
theorem c7_token_unavailable_404 (a : FlightArgs) (ha : HotelArgs) (aa : ActivityArgs)
    (now : Int) (tresp : TokenResponse) (st : TokenState) (go : GetOutcome)
    (htok : (get_amadeus_token now tresp st).1 = .unavailable)
    (hpres : (py_truthy a.origin && py_truthy a.destination &&
      py_truthy a.departureDate) = true) :
    make_amadeus_request now tresp st go =
      (.noneRes, (get_amadeus_token now tresp st).2.1, false) ∧
    (search_flights a now tresp st go).1 = .notFound "No flights found" ∧
    (search_flights a now tresp st go).2.2 = none ∧
    (∀ hp, search_hotels_validate ha = .ok hp →
      (search_hotels ha now tresp st go).1 = .notFound "No hotels found") ∧
    (∀ ap, search_activities_validate aa = .ok ap →
      (search_activities aa now tresp st go).1 = .notFound "No activities found") := by
  have hm : make_amadeus_request now tresp st go =
      (.noneRes, (get_amadeus_token now tresp st).2.1, false) := by
    simp only [make_amadeus_request, htok]
  refine ⟨hm, ?_, ?_, ?_, ?_⟩
  · simp [search_flights, hpres, hm]
  · simp [search_flights, hpres, hm]
  · intro hp hv
    simp [search_hotels, hv, hm]
  · intro ap hv
    simp [search_activities, hv, hm]

/-- Witness for C7: upstream token endpoint unreachable, empty cache,
well-formed flight, hotel and activity queries. -/
theorem c7_witness :
    make_amadeus_request 0 .networkError ⟨none, none⟩ .reqError =
      (.noneRes, (get_amadeus_token 0 .networkError ⟨none, none⟩).2.1, false) ∧
    (search_flights ⟨some "JFK", some "LAX", some "2025-08-20", none, none, none, none⟩
        0 .networkError ⟨none, none⟩ .reqError).1 = .notFound "No flights found" ∧
    (search_flights ⟨some "JFK", some "LAX", some "2025-08-20", none, none, none, none⟩
        0 .networkError ⟨none, none⟩ .reqError).2.2 = none ∧
    (∀ hp, search_hotels_validate
        ⟨some "LAX", some "2025-08-20", some "2025-08-22", none, none⟩ = .ok hp →
      (search_hotels ⟨some "LAX", some "2025-08-20", some "2025-08-22", none, none⟩
        0 .networkError ⟨none, none⟩ .reqError).1 = .notFound "No hotels found") ∧
    (∀ ap, search_activities_validate ⟨some "40", some "-74", none⟩ = .ok ap →
      (search_activities ⟨some "40", some "-74", none⟩
        0 .networkError ⟨none, none⟩ .reqError).1 = .notFound "No activities found") :=
  c7_token_unavailable_404
    ⟨some "JFK", some "LAX", some "2025-08-20", none, none, none, none⟩
    ⟨some "LAX", some "2025-08-20", some "2025-08-22", none, none⟩
    ⟨some "40", some "-74", none⟩
    0 .networkError ⟨none, none⟩ .reqError rfl rfl

/-- C3 counterexample: the claim requires that an upstream flights call only
happens when the origin is exactly 3 alphabetic characters; but the route
with origin "newyork1" issues the upstream GET (the request parameter list
records it), so the 3-letter rule is not enforced on the flights endpoint. -/
theorem c3_counterexample :
    ¬ (∀ (a : FlightArgs) (now : Int) (tresp : TokenResponse) (st : TokenState)
        (go : GetOutcome),
        (search_flights a now tresp st go).2.2.isSome = true →
        ∃ s, a.origin = some s ∧ s.length = 3 ∧ s.data.all Char.isAlpha = true) := by
  intro h
  have hx := h ⟨some "newyork1", some "lax", some "2025-08-20", none, none, none, none⟩
      0 (.jsonBody (some "T") none) ⟨none, none⟩ (.jsonBody ⟨some [0], none, false⟩)
      (by decide)
  rcases hx with ⟨s, hs, hlen, _⟩
  have hs2 : "newyork1" = s := by
    simpa using hs
  subst hs2
  exact absurd hlen (by decide)

/-- C3 amended: the flights endpoint validates origin and destination only
for presence (missing or empty parameters give the 400 missing-parameters
response before any upstream call) and normalizes them to uppercase in the
upstream request; no 3-alphabetic-character rule is enforced there. -/
theorem c3_flights_presence_only (a : FlightArgs) (now : Int) (tresp : TokenResponse)
    (st : TokenState) (go : GetOutcome) :
    ((py_truthy a.origin && py_truthy a.destination &&
        py_truthy a.departureDate) = false →
      search_flights a now tresp st go =
        (.missingParams ["origin", "destination", "departureDate"], st, none)) ∧
    (∀ p, (search_flights a now tresp st go).2.2 = some p →
      p.originLocationCode = py_upper (a.origin.getD "") ∧
      p.destinationLocationCode = py_upper (a.destination.getD "")) := by
  constructor
  · intro h
    simp [search_flights, h]
  · intro p hp
    cases hc : (py_truthy a.origin && py_truthy a.destination &&
        py_truthy a.departureDate) with
    | false => simp [search_flights, hc] at hp
    | true =>
        simp only [search_flights, hc] at hp
        cases hi : (make_amadeus_request now tresp st go).2.2 <;> simp [hi] at hp
        rw [← hp]
        exact ⟨rfl, rfl⟩

/-- Witness for C3 amended: a request lacking destination gets the 400
missing-parameters response, and a complete lower-case request has its codes
uppercased in the upstream parameters. -/
theorem c3_amended_witness :
    search_flights ⟨some "jfk", none, some "2025-08-20", none, none, none, none⟩
        0 .networkError ⟨none, none⟩ .reqError =
      (.missingParams ["origin", "destination", "departureDate"], ⟨none, none⟩, none) ∧
    ((flight_params "jfk" "lax" "2025-08-20" "1" "ECONOMY" none none).originLocationCode =
        py_upper "jfk" ∧
      (flight_params "jfk" "lax" "2025-08-20" "1" "ECONOMY" none none).destinationLocationCode =
        py_upper "lax") :=
  ⟨(c3_flights_presence_only ⟨some "jfk", none, some "2025-08-20", none, none, none, none⟩
      0 .networkError ⟨none, none⟩ .reqError).1 rfl,
   (c3_flights_presence_only ⟨some "jfk", some "lax", some "2025-08-20", none, none, none, none⟩
      0 (.jsonBody (some "T") none) ⟨none, none⟩ .reqError).2
      (flight_params "jfk" "lax" "2025-08-20" "1" "ECONOMY" none none) rfl⟩

/-- C10: every upstream flight-offers request actually issued by the flights
endpoint carries the fixed parameters currencyCode "USD" and max 50. -/
theorem c10_flights_fixed_params (a : FlightArgs) (now : Int) (tresp : TokenResponse)
    (st : TokenState) (go : GetOutcome) (p : FlightParams)
    (h : (search_flights a now tresp st go).2.2 = some p) :
    p.currencyCode = "USD" ∧ p.max = 50 := by
  cases hc : (py_truthy a.origin && py_truthy a.destination &&
      py_truthy a.departureDate) with
  | false => simp [search_flights, hc] at h
  | true =>
      simp only [search_flights, hc] at h
      cases hi : (make_amadeus_request now tresp st go).2.2 <;> simp [hi] at h
      rw [← h]
      exact ⟨rfl, rfl⟩

/-- Witness for C10 at a concrete issued request. -/
theorem c10_witness :
    (flight_params "JFK" "LAX" "2025-08-20" "1" "ECONOMY" none none).currencyCode = "USD" ∧
    (flight_params "JFK" "LAX" "2025-08-20" "1" "ECONOMY" none none).max = 50 :=
  c10_flights_fixed_params
    ⟨some "JFK", some "LAX", some "2025-08-20", none, none, none, none⟩
    0 (.jsonBody (some "T") none) ⟨none, none⟩ (.jsonBody ⟨some [0], none, false⟩)
    (flight_params "JFK" "LAX" "2025-08-20" "1" "ECONOMY" none none) rfl

/-- A successful strptime parse presupposes the ten-character shape. -/
theorem strptime_ok_imp_core (s : String) (h : strptime_Y_m_d_ok s = true) :
    date_pattern_core s = true := by
  unfold strptime_Y_m_d_ok at h
  unfold date_pattern_core
  cases hp : parse_ymd s with
  | none => rw [hp] at h; exact absurd h (by simp)
  | some v => simp

/-- A string of the ten-character date shape is not empty. -/
theorem core_ne_empty (s : String) (h : date_pattern_core s = true) :
    (s == "") = false := by
  by_cases he : s = ""
  · subst he
    exact absurd h (by decide)
  · simp [he]

/-- C9: `validate_date` accepts exactly the strings of the literal
YYYY-MM-DD shape denoting a real calendar date, returning them unchanged;
strings not of that shape fail, and shape-matching strings that are not
calendar-valid (such as 2025-02-30) fail with the "not a valid date"
message. -/
theorem c9_validate_date_cases (s fn : String) :
    (date_pattern_core s = true → strptime_Y_m_d_ok s = true →
        validate_date s fn = .ok s) ∧
    (date_pattern_core s = false → ∃ m, validate_date s fn = .error m) ∧
    (date_pattern_core s = true → strptime_Y_m_d_ok s = false →
        validate_date s fn = .error (fn ++ " is not a valid date")) := by
  refine ⟨?_, ?_, ?_⟩
  · intro hp hs
    have he := core_ne_empty s hp
    have hr : re_match_date s = true := by simp [re_match_date, hp]
    simp [validate_date, he, hr, hs]
  · intro hp
    have hs : strptime_Y_m_d_ok s = false := by
      cases hq : strptime_Y_m_d_ok s
      · rfl
      · exact absurd (strptime_ok_imp_core s hq) (by simp [hp])
    cases hcond : (s == "" || !(re_match_date s)) with
    | true => exact ⟨fn ++ " must be in YYYY-MM-DD format", by simp [validate_date, hcond]⟩
    | false => exact ⟨fn ++ " is not a valid date", by simp [validate_date, hcond, hs]⟩
  · intro hp hs
    have he := core_ne_empty s hp
    have hr : re_match_date s = true := by simp [re_match_date, hp]
    simp [validate_date, he, hr, hs]

/-- Witness for C9: a real date is returned unchanged, the shape-matching
but impossible 2025-02-30 fails with the calendar message, and non-matching
input fails. -/
theorem c9_witness :
    validate_date "2025-08-20" "checkInDate" = .ok "2025-08-20" ∧
    validate_date "2025-02-30" "checkInDate" =
      .error ("checkInDate" ++ " is not a valid date") ∧
    (∃ m, validate_date "abc" "checkInDate" = .error m) :=
  ⟨(c9_validate_date_cases "2025-08-20" "checkInDate").1 (by decide) (by decide),
   (c9_validate_date_cases "2025-02-30" "checkInDate").2.2 (by decide) (by decide),
   (c9_validate_date_cases "abc" "checkInDate").2.1 (by decide)⟩

/-- C8: the hotels validation phase agrees with the spec-side two-phase
model: whenever any of the three required parameters is missing the single
missing-parameters failure listing all three names is produced (before any
per-field checks), and otherwise the first per-field failure in field order
is the one produced; the endpoint returns such a failure as its response
without calling upstream. -/
theorem c8_hotels_validation_order (a : HotelArgs) (now : Int) (tresp : TokenResponse)
    (st : TokenState) (go : GetOutcome) :
    exceptError (search_hotels_validate a) = hotels_validation_spec a ∧
    (∀ r, search_hotels_validate a = .error r →
      search_hotels a now tresp st go = (r, st, none)) := by
  constructor
  · unfold search_hotels_validate hotels_validation_spec
    cases hc : (py_truthy a.cityCode && py_truthy a.checkInDate &&
        py_truthy a.checkOutDate) with
    | false => simp [exceptError]
    | true =>
        simp only [Bool.not_true, Bool.false_eq_true, if_false]
        cases h1 : validate_city_code (a.cityCode.getD "") with
        | error m => simp [exceptError, first_some]
        | ok vc =>
          cases h2 : validate_date (a.checkInDate.getD "") "checkInDate" with
          | error m => simp [exceptError, first_some]
          | ok ci =>
            cases h3 : validate_date (a.checkOutDate.getD "") "checkOutDate" with
            | error m => simp [exceptError, first_some]
            | ok co =>
              cases h4 : validate_positive_int (a.adults.getD "1") "adults" 1 30 with
              | error m => simp [exceptError, first_some]
              | ok ad =>
                cases h5 : validate_positive_int (a.roomQuantity.getD "1")
                    "roomQuantity" 1 10 with
                | error m => simp [exceptError, first_some]
                | ok rq => simp [exceptError, first_some]
  · intro r hr
    simp [search_hotels, hr]

/-- Witness for C8: a request missing cityCode gets the missing-parameters
response listing all three names, matching the spec-side model. -/
theorem c8_witness :
    exceptError (search_hotels_validate
        ⟨none, some "2025-08-20", some "2025-08-22", none, none⟩) =
      hotels_validation_spec ⟨none, some "2025-08-20", some "2025-08-22", none, none⟩ ∧
    search_hotels ⟨none, some "2025-08-20", some "2025-08-22", none, none⟩
        0 .networkError ⟨none, none⟩ .reqError =
      (.missingParams ["cityCode", "checkInDate", "checkOutDate"], ⟨none, none⟩, none) :=
  ⟨(c8_hotels_validation_order ⟨none, some "2025-08-20", some "2025-08-22", none, none⟩
      0 .networkError ⟨none, none⟩ .reqError).1,
   (c8_hotels_validation_order ⟨none, some "2025-08-20", some "2025-08-22", none, none⟩
      0 .networkError ⟨none, none⟩ .reqError).2
     (.missingParams ["cityCode", "checkInDate", "checkOutDate"]) rfl⟩
